import Mathlib

/-!
Verification development for the FoodExpress credit-scoring subsystem
(`src/app.py`, `src/config.py`).

The Python code is shallowly embedded:
* the SQL aggregation feeding `calculate_credit_score` is abstracted into an
  `OrderBehaviorStats` record (the values after `safe_int` / `safe_float`);
  a failed fetch (exception in the `try` block, or no row) is the `none` case;
* Python float arithmetic on the rates and feedback averages is modelled by
  exact rational arithmetic (`ℚ`);
* the MySQL connection is modelled by a `Conn` carrying a committed database
  state and a pending (in-transaction) state; `conn.commit()` promotes pending
  to committed, `conn.rollback()` discards pending;
* a statement that raises is modelled by a boolean failure flag on the
  operation that executes it; a failed statement leaves the pending state as
  it was before that statement.
Tables not touched by the credit subsystem (`customer_feedback`,
`admin_actions`, `notifications`, menu and restaurant tables) are omitted
from the database state, as are the route-level permission checks.
-/

/-- The five credit tiers of `Config.CREDIT_SCORE_RANGES` and the
`credit_status` enum of the `users` table. -/
inductive Tier where
  | trusted
  | good
  | average
  | risky
  | blocked
deriving DecidableEq, Repr

/-- `Config.DEFAULT_CREDIT_SCORE` (src/config.py line 110). -/
def DEFAULT_CREDIT_SCORE : Int := 70

/-- `Config.CREDIT_SCORE_RANGES` (src/config.py lines 102-108): inclusive
(low, high) bounds per tier. -/
def CREDIT_SCORE_RANGES : Tier → Int × Int
  | .trusted => (90, 100)
  | .good    => (75, 89)
  | .average => (50, 74)
  | .risky   => (30, 49)
  | .blocked => (0, 29)

/-- The aggregated row fetched at the top of `calculate_credit_score`
(src/app.py lines 56-78), after the `safe_int` / `safe_float` conversions:
counts as naturals, feedback averages as rationals (`AVG` of a column with
no non-NULL values is `NULL`, which `safe_float` turns into `0.0`). -/
structure OrderBehaviorStats where
  total_orders : Nat
  completed_orders : Nat
  cancelled_orders : Nat
  failed_payments : Nat
  avg_restaurant_feedback : ℚ
  avg_delivery_feedback : ℚ
deriving DecidableEq, Repr

/-- The clamp on src/app.py line 115: `score = max(0, min(100, score))`. -/
def clamp (x : Int) : Int := max 0 (min 100 x)

/-- The adjustment block of `calculate_credit_score` (src/app.py lines
80-113): base 70, then the behaviour adjustments when `total_orders > 0`.
All adjustments are integers, so the Python `score` variable stays an
integer and the final `int(score)` is the identity. -/
def raw_score (r : OrderBehaviorStats) : Int :=
  let score : Int := DEFAULT_CREDIT_SCORE
  if r.total_orders > 0 then
    let completion_rate : ℚ := (r.completed_orders : ℚ) / (r.total_orders : ℚ)
    let cancellation_rate : ℚ := (r.cancelled_orders : ℚ) / (r.total_orders : ℚ)
    let score := if completion_rate > 9/10 then score + 10
      else if completion_rate > 7/10 then score + 5
      else score
    let score := if cancellation_rate > 3/10 then score - 20
      else if cancellation_rate > 1/10 then score - 10
      else score
    let score := if r.failed_payments > 0 then score - (r.failed_payments : Int) * 5
      else score
    let score := if r.avg_restaurant_feedback > 4 then score + 5
      else if r.avg_restaurant_feedback < 2 then score - 10
      else score
    let score := if r.avg_delivery_feedback > 4 then score + 3
      else if r.avg_delivery_feedback < 2 then score - 5
      else score
    score
  else
    score

/-- `calculate_credit_score` (src/app.py lines 50-123) as a function of the
fetch outcome: `none` models the `except` path (line 119-121) and the
`if not result` path (line 70-71), both of which return
`Config.DEFAULT_CREDIT_SCORE`; `some r` models the normal path, which clamps
the adjusted score to [0,100] (line 115) and returns it (line 117). -/
def calculate_credit_score : Option OrderBehaviorStats → Int
  | none => DEFAULT_CREDIT_SCORE
  | some r => clamp (raw_score r)

/-- The SQL `CASE` that `update_user_credit_score` writes into
`credit_status` (src/app.py lines 135-141). -/
def creditStatusCase (score : Int) : Tier :=
  if score ≥ 90 then .trusted
  else if score ≥ 75 then .good
  else if score ≥ 50 then .average
  else if score ≥ 30 then .risky
  else .blocked

/-- The SQL `CASE` that `admin_update_credit_score` writes into
`credit_status` (src/app.py lines 1985-1991); transcribed from its own site,
it is proved below to agree with `creditStatusCase`. -/
def adminCreditStatusCase (score : Int) : Tier :=
  if score ≥ 90 then .trusted
  else if score ≥ 75 then .good
  else if score ≥ 50 then .average
  else if score ≥ 30 then .risky
  else .blocked

/-- The {credit_score, credit_status} pair inserted by `register`
(src/app.py line 446): `(Config.DEFAULT_CREDIT_SCORE, 'average')`. -/
def registrationCredit : Int × Tier := (DEFAULT_CREDIT_SCORE, Tier.average)

/-- The {credit_score, credit_status} pair of the seeded admin user
(src/app.py line 374): `(100, 'trusted')`. -/
def adminSeedCredit : Int × Tier := (100, Tier.trusted)

/-- The {credit_score, credit_status} column defaults of the `users` table
(src/app.py lines 200-201): `70` and `'average'`. -/
def userTableDefaultCredit : Int × Tier := (70, Tier.average)

/-- The discount computation of `customer_dashboard`
(src/app.py lines 700-710). -/
def dashboardDiscount (credit_score : Int) : Int :=
  if credit_score ≥ 90 then 20
  else if credit_score ≥ 75 then 15
  else if credit_score ≥ 50 then 10
  else if credit_score ≥ 30 then 5
  else 0

/-- The discount computation of `create_order`
(src/app.py lines 2129-2137). -/
def createOrderDiscount (credit_score : Int) : Int :=
  if credit_score ≥ 90 then 20
  else if credit_score ≥ 75 then 15
  else if credit_score ≥ 50 then 10
  else if credit_score ≥ 30 then 5
  else 0

/-- Discount percentage per tier, read off the branches shared by
`customer_dashboard` and `create_order`. -/
def tierDiscount : Tier → Int
  | .trusted => 20
  | .good    => 15
  | .average => 10
  | .risky   => 5
  | .blocked => 0

theorem clamp_bounds (x : Int) : 0 ≤ clamp x ∧ clamp x ≤ 100 := by
  unfold clamp
  omega

/-- C1: for every stats input (including extreme values such as
`failed_payments = 1000`) and also on the fetch-failure path,
`calculate_credit_score` returns an integer in [0,100]: the sum of base 70
and all adjustments is clamped to [0,100] before being returned. -/
theorem c1_score_in_bounds (st : Option OrderBehaviorStats) :
    0 ≤ calculate_credit_score st ∧ calculate_credit_score st ≤ 100 := by
  cases st with
  | none => exact ⟨by norm_num [calculate_credit_score, DEFAULT_CREDIT_SCORE],
      by norm_num [calculate_credit_score, DEFAULT_CREDIT_SCORE]⟩
  | some r => exact clamp_bounds (raw_score r)

/-- C2: the tier classification is total on [0,100]; for every score in
[0,100] and every tier, the classification hits that tier exactly when the
score lies in the tier's `CREDIT_SCORE_RANGES` interval (so the five ranges
partition [0,100] with no gaps or overlaps, boundaries at 29/30, 49/50,
74/75, 89/90); the `CASE` used by the admin override path is the same rule;
and the fixed {score, status} pairs written by registration, the admin seed,
and the table defaults are consistent with the rule. -/
theorem c2_tier_partition (s : Int) (t : Tier) (h0 : 0 ≤ s) (h1 : s ≤ 100) :
    (creditStatusCase s = t ↔
      (CREDIT_SCORE_RANGES t).1 ≤ s ∧ s ≤ (CREDIT_SCORE_RANGES t).2)
    ∧ adminCreditStatusCase s = creditStatusCase s
    ∧ creditStatusCase registrationCredit.1 = registrationCredit.2
    ∧ creditStatusCase adminSeedCredit.1 = adminSeedCredit.2
    ∧ creditStatusCase userTableDefaultCredit.1 = userTableDefaultCredit.2 := by
  refine ⟨?_, by rfl, by decide, by decide, by decide⟩
  cases t <;> simp only [creditStatusCase, CREDIT_SCORE_RANGES] <;>
    split_ifs <;> simp_all <;> omega

/-- C2 witness: the partition property and write-site agreement evaluated at
the boundary score 75 and tier `good`. -/
theorem c2_tier_partition_witness :
    (creditStatusCase 75 = Tier.good ↔
      (CREDIT_SCORE_RANGES Tier.good).1 ≤ 75 ∧
        (75 : Int) ≤ (CREDIT_SCORE_RANGES Tier.good).2)
    ∧ adminCreditStatusCase 75 = creditStatusCase 75
    ∧ creditStatusCase registrationCredit.1 = registrationCredit.2
    ∧ creditStatusCase adminSeedCredit.1 = adminSeedCredit.2
    ∧ creditStatusCase userTableDefaultCredit.1 = userTableDefaultCredit.2 :=
  c2_tier_partition 75 Tier.good (by decide) (by decide)

/-- C7: for every stats row with `total_orders = 0`, the score computation
returns exactly 70, regardless of all other fields: the adjustment block is
skipped and the clamp leaves the base unchanged. -/
theorem c7_no_orders_default (r : OrderBehaviorStats) (h : r.total_orders = 0) :
    calculate_credit_score (some r) = 70 := by
  simp [calculate_credit_score, raw_score, h, clamp, DEFAULT_CREDIT_SCORE]

/-- C7 witness: a stats row with `total_orders = 0` but extreme values in
every other field still scores exactly 70. -/
theorem c7_no_orders_default_witness :
    calculate_credit_score (some ⟨0, 3, 5, 1000, 1, 1⟩) = 70 :=
  c7_no_orders_default ⟨0, 3, 5, 1000, 1, 1⟩ rfl

/-- C10: the discount percentage applied when an order is created is a
deterministic function of the stored credit score, identical to the
dashboard's computation, and aligned with the five tiers: 20 for trusted
(score ≥ 90), 15 for good, 10 for average, 5 for risky, 0 for blocked. -/
theorem c10_discount_by_tier (s : Int) :
    createOrderDiscount s = dashboardDiscount s
    ∧ createOrderDiscount s = tierDiscount (creditStatusCase s) := by
  refine ⟨rfl, ?_⟩
  simp only [createOrderDiscount, creditStatusCase]
  split_ifs <;> rfl

/-- A row of the `users` table restricted to the credit columns
(src/app.py lines 192-201). -/
structure User where
  id : Nat
  credit_score : Int
  credit_status : Tier
deriving DecidableEq, Repr

/-- A row of the `orders` table restricted to the columns read by
`cancel_order` (src/app.py lines 2218-2221): id, user_id, status and the
`customer_credit_score` snapshot stored at order creation. -/
structure OrderRow where
  id : Nat
  user_id : Nat
  status : String
  customer_credit_score : Int
deriving DecidableEq, Repr

/-- A row of the `credit_history` table (src/app.py lines 297-310). -/
structure CreditHistoryEntry where
  user_id : Nat
  old_score : Int
  new_score : Int
  change_amount : Int
  reason : String
  triggered_by : String
  reference_id : Option Nat
deriving DecidableEq, Repr

/-- The tables of the database touched by the credit subsystem.
`credit_history` is append-only; list order is insertion order. -/
structure DBState where
  users : List User
  orders : List OrderRow
  credit_history : List CreditHistoryEntry
deriving DecidableEq, Repr

/-- The shared MySQL connection (`mysql.connection`): a committed state and
the pending in-transaction state seen by cursors. -/
structure Conn where
  committed : DBState
  pending : DBState
deriving DecidableEq, Repr

/-- `conn.commit()`: make the pending state durable. -/
def Conn.commit (c : Conn) : Conn :=
  { committed := c.pending, pending := c.pending }

/-- `conn.rollback()`: discard the pending state. -/
def Conn.rollback (c : Conn) : Conn :=
  { committed := c.committed, pending := c.committed }

/-- `SELECT ... FROM users WHERE id = uid` (first match). -/
def findUser (users : List User) (uid : Nat) : Option User :=
  users.find? fun u => u.id == uid

/-- `SELECT ... FROM orders WHERE id = oid` (first match). -/
def findOrder (orders : List OrderRow) (oid : Nat) : Option OrderRow :=
  orders.find? fun o => o.id == oid

/-- The `UPDATE users SET credit_score = %s, credit_status = CASE ... END
WHERE id = %s` statement, parameterised by the `CASE` expression of the
issuing site; rows that do not match are untouched, and a missing id makes
the statement a no-op (0 rows matched, no error). -/
def updateUserRow (cls : Int → Tier) (users : List User) (uid : Nat)
    (s : Int) : List User :=
  users.map fun u =>
    if u.id == uid then { u with credit_score := s, credit_status := cls s }
    else u

/-- The `UPDATE orders SET status = 'cancelled' ... WHERE id = %s` statement
of `cancel_order` (src/app.py lines 2238-2245). -/
def updateOrderCancelled (orders : List OrderRow) (oid : Nat) : List OrderRow :=
  orders.map fun o => if o.id == oid then { o with status := "cancelled" } else o

/-- The `INSERT INTO credit_history ...` statement. -/
def appendHistory (db : DBState) (e : CreditHistoryEntry) : DBState :=
  { db with credit_history := db.credit_history ++ [e] }

/-- Stored credit score of a user in a database state. -/
def userScore (db : DBState) (uid : Nat) : Option Int :=
  (findUser db.users uid).map User.credit_score

/-- Stored credit status of a user in a database state. -/
def userStatus (db : DBState) (uid : Nat) : Option Tier :=
  (findUser db.users uid).map User.credit_status

/-- `update_user_credit_score` (src/app.py lines 125-151): compute the score
from the fetched stats, run the UPDATE (no user-existence check), and
`conn.commit()`; on an exception in the UPDATE the function prints and
returns `None` (modelled by `updateFails = true`), leaving the transaction
as it was. Note the commit happens inside this helper, before any caller
writes a ledger entry. -/
def update_user_credit_score (conn : Conn) (uid : Nat)
    (stats : Option OrderBehaviorStats) (updateFails : Bool) :
    Conn × Option Int :=
  let score := calculate_credit_score stats
  if updateFails then (conn, none)
  else
    let c := Conn.commit
      { conn with pending :=
          { conn.pending with
              users := updateUserRow creditStatusCase conn.pending.users uid score } }
    (c, some score)

/-- The credit portion of `submit_customer_feedback` (src/app.py lines
1937-1949), after the restaurant/order lookups: recompute via
`update_user_credit_score`, then insert a ledger entry whose old score is
`session.get('credit_score', 70)` — the session value of the logged-in
restaurant user — and commit. If the helper returned `None`, the expression
`new_score - session.get(...)` raises `TypeError`, caught by the route's
`except`, which rolls back (src/app.py lines 1953-1955); a failing ledger
insert (`ledgerFails`) takes the same `except`/rollback path. The
`customer_feedback` insert that precedes this block touches no credit table
and is omitted. -/
def submit_customer_feedback (conn : Conn) (sessionCredit : Int)
    (customer_id oid : Nat) (stats : Option OrderBehaviorStats)
    (updateFails ledgerFails : Bool) : Conn × Bool :=
  let r := update_user_credit_score conn customer_id stats updateFails
  match r.2 with
  | none => (Conn.rollback r.1, false)
  | some new_score =>
    if ledgerFails then (Conn.rollback r.1, false)
    else
      let e : CreditHistoryEntry :=
        ⟨customer_id, sessionCredit, new_score, new_score - sessionCredit,
         "Restaurant feedback", "restaurant", some oid⟩
      (Conn.commit { r.1 with pending := appendHistory r.1.pending e }, true)

/-- The customer-role path of `cancel_order` (src/app.py lines 2204-2273):
look up the order, mark it cancelled, recompute the customer's score via
`update_user_credit_score`, then insert a ledger entry whose old score is
the order's `customer_credit_score` snapshot (src/app.py line 2256) and
commit; a raising statement takes the `except`/rollback path exactly as in
`submit_customer_feedback`. The permission check and the warning
notification are omitted. -/
def cancel_order (conn : Conn) (oid : Nat) (reason : String)
    (stats : Option OrderBehaviorStats) (updateFails ledgerFails : Bool) :
    Conn × Bool :=
  match findOrder conn.pending.orders oid with
  | none => (conn, false)
  | some ord =>
    let c0 :=
      { conn with pending :=
          { conn.pending with
              orders := updateOrderCancelled conn.pending.orders oid } }
    let r := update_user_credit_score c0 ord.user_id stats updateFails
    match r.2 with
    | none => (Conn.rollback r.1, false)
    | some new_score =>
      if ledgerFails then (Conn.rollback r.1, false)
      else
        let e : CreditHistoryEntry :=
          ⟨ord.user_id, ord.customer_credit_score, new_score,
           new_score - ord.customer_credit_score,
           "Order cancellation: " ++ reason, "system", some oid⟩
        (Conn.commit { r.1 with pending := appendHistory r.1.pending e }, true)

/-- `admin_update_credit_score` (src/app.py lines 1959-2020): read the
current score (returning an error response, with no write, when the user is
missing), run the UPDATE with the caller-supplied score — note: no clamping
of `new_score` anywhere — insert the ledger entry with `triggered_by =
'admin'`, and only then `conn.commit()`; any raising statement takes the
route's `except`/rollback path. The `admin_actions` audit insert is outside
the credit subsystem and omitted. -/
def admin_update_credit_score (conn : Conn) (uid : Nat) (reqScore : Int)
    (reason : String) (updateFails ledgerFails : Bool) : Conn × Bool :=
  let new_score := reqScore
  match findUser conn.pending.users uid with
  | none => (conn, false)
  | some current =>
    let old_score := current.credit_score
    if updateFails then (Conn.rollback conn, false)
    else
      let c1 :=
        { conn with pending :=
            { conn.pending with
                users := updateUserRow adminCreditStatusCase
                  conn.pending.users uid new_score } }
      if ledgerFails then (Conn.rollback c1, false)
      else
        let e : CreditHistoryEntry :=
          ⟨uid, old_score, new_score, new_score - old_score, reason,
           "admin", none⟩
        (Conn.commit { c1 with pending := appendHistory c1.pending e }, true)

theorem getLast_append_one (l : List CreditHistoryEntry) (e : CreditHistoryEntry) :
    (l ++ [e]).getLast? = some e := by
  induction l with
  | nil => rfl
  | cons a t ih =>
    cases t with
    | nil => rfl
    | cons b t2 => simpa using ih

theorem findUser_updateUserRow (cls : Int → Tier) (users : List User)
    (uid : Nat) (s : Int) :
    findUser (updateUserRow cls users uid s) uid
      = (findUser users uid).map fun u =>
          { u with credit_score := s, credit_status := cls s } := by
  unfold updateUserRow findUser
  rw [List.find?_map]
  have hp : ((fun u => u.id == uid) ∘ fun u =>
      if (u.id == uid) = true
      then { u with credit_score := s, credit_status := cls s } else u)
      = fun u : User => u.id == uid := by
    funext u
    by_cases h : u.id = uid <;> simp [h]
  rw [hp]
  cases hf : List.find? (fun u : User => u.id == uid) users with
  | none => rfl
  | some u =>
    have hpu : u.id = uid := by simpa using List.find?_some hf
    simp [hpu]

theorem updateUserRow_not_found (cls : Int → Tier) (users : List User)
    (uid : Nat) (s : Int) (h : findUser users uid = none) :
    updateUserRow cls users uid s = users := by
  induction users with
  | nil => rfl
  | cons a l ih =>
    by_cases hh : a.id = uid
    · simp [findUser, List.find?_cons, hh] at h
    · have h2 : findUser l uid = none := by
        simpa [findUser, List.find?_cons, hh] using h
      simp [updateUserRow, hh] at ih ⊢
      exact ih h2

theorem rollback_clean (c : Conn) (h : c.pending = c.committed) :
    Conn.rollback c = c := by
  cases c
  simp_all [Conn.rollback]

/-- Test fixture: a user with stored score 50 (tier average) and a clean
connection over a database holding only that user. -/
def user50 : User := ⟨1, 50, Tier.average⟩

def db50 : DBState := ⟨[user50], [], []⟩

def conn50 : Conn := ⟨db50, db50⟩

/-- Test fixture: a stats row for a user with no orders (scores to 70). -/
def stats0 : OrderBehaviorStats := ⟨0, 0, 0, 0, 0, 0⟩

/-- Test fixture: a user whose stored score is already the default 70. -/
def user70 : User := ⟨1, 70, Tier.average⟩

def dbIdem : DBState := ⟨[user70], [], []⟩

def connIdem : Conn := ⟨dbIdem, dbIdem⟩

/-- Test fixture: an empty database (no users at all). -/
def connEmpty : Conn := ⟨⟨[], [], []⟩, ⟨[], [], []⟩⟩

/-- Test fixture: an order of user 1 whose stored credit snapshot is 50. -/
def order5 : OrderRow := ⟨5, 1, "pending", 50⟩

def dbOrd : DBState := ⟨[user50], [order5], []⟩

def connOrd : Conn := ⟨dbOrd, dbOrd⟩

/-- C3 counterexample: an admin override supplying score 150 for a user
whose stored score is 50 persists 150, not the claimed clamped value 100 —
`admin_update_credit_score` never clamps the caller-supplied score. -/
theorem c3_counterexample :
    userScore (admin_update_credit_score conn50 1 150 "test" false false).1.committed 1
      = some 150
    ∧ userScore (admin_update_credit_score conn50 1 150 "test" false false).1.committed 1
      ≠ some 100 := by
  decide

/-- C3 amended: for every admin override call on an existing user, the
caller-supplied new score is persisted unclamped and classified by the
`CASE` rule: override with supplied score 150 persists 150 (tier trusted,
since 150 ≥ 90) and appends a ledger entry with change_amount equal to the
supplied score minus the user's previous score. -/
theorem c3_override_persists_unclamped (conn : Conn) (u : User) (uid : Nat)
    (reqScore : Int) (reason : String)
    (hu : findUser conn.pending.users uid = some u) :
    (admin_update_credit_score conn uid reqScore reason false false).2 = true
    ∧ userScore
        (admin_update_credit_score conn uid reqScore reason false false).1.committed uid
      = some reqScore
    ∧ userStatus
        (admin_update_credit_score conn uid reqScore reason false false).1.committed uid
      = some (adminCreditStatusCase reqScore)
    ∧ (admin_update_credit_score conn uid reqScore reason false false).1.committed.credit_history
      = conn.pending.credit_history
        ++ [⟨uid, u.credit_score, reqScore, reqScore - u.credit_score, reason,
             "admin", none⟩] := by
  simp [admin_update_credit_score, hu, Conn.commit, appendHistory, userScore,
    userStatus, findUser_updateUserRow]

/-- C3 witness: the amended override behaviour evaluated on the concrete
fixture — score 150 supplied for a user stored at 50. -/
theorem c3_override_persists_unclamped_witness :
    (admin_update_credit_score conn50 1 150 "test" false false).2 = true
    ∧ userScore (admin_update_credit_score conn50 1 150 "test" false false).1.committed 1
      = some 150
    ∧ userStatus (admin_update_credit_score conn50 1 150 "test" false false).1.committed 1
      = some (adminCreditStatusCase 150)
    ∧ (admin_update_credit_score conn50 1 150 "test" false false).1.committed.credit_history
      = conn50.pending.credit_history
        ++ [⟨1, user50.credit_score, 150, 150 - user50.credit_score, "test",
             "admin", none⟩] :=
  c3_override_persists_unclamped conn50 user50 1 150 "test" (by decide)

/-- C4 counterexample: on the recompute path, the score/status update and
the ledger append are not atomic. With a user stored at 50 and a failing
ledger insert, the committed state after `submit_customer_feedback` holds
the updated score 70 while `credit_history` is still empty: a status update
exists with no matching ledger entry, because `update_user_credit_score`
commits on its own before the caller appends the entry. -/
theorem c4_counterexample :
    userScore (submit_customer_feedback conn50 70 1 9 (some stats0) false true).1.committed 1
      = some 70
    ∧ userScore conn50.committed 1 = some 50
    ∧ (submit_customer_feedback conn50 70 1 9 (some stats0) false true).1.committed.credit_history
      = [] := by
  decide

/-- C4 amended: only the override path is atomic. On the recompute
(feedback) path the score/status update is committed by
`update_user_credit_score` itself, so a failing ledger append leaves the
committed state with the new score and an unchanged ledger; on the override
path any failing statement rolls the whole unit back, and on success the
score update and the ledger entry become durable together in one commit. -/
theorem c4_update_ledger_atomicity (conn : Conn) (u : User) (sess : Int)
    (uid oid : Nat) (st : Option OrderBehaviorStats) (reqScore : Int)
    (reason : String) (uFail lFail : Bool)
    (hclean : conn.pending = conn.committed)
    (hu : findUser conn.pending.users uid = some u) :
    ((submit_customer_feedback conn sess uid oid st false true).1.committed.users
        = updateUserRow creditStatusCase conn.committed.users uid
            (calculate_credit_score st)
      ∧ (submit_customer_feedback conn sess uid oid st false true).1.committed.credit_history
        = conn.committed.credit_history)
    ∧ ((uFail = true ∨ lFail = true) →
        (admin_update_credit_score conn uid reqScore reason uFail lFail).1.committed
          = conn.committed)
    ∧ (uFail = false → lFail = false →
        (admin_update_credit_score conn uid reqScore reason uFail lFail).1.committed
          = { users := updateUserRow adminCreditStatusCase conn.committed.users
                uid reqScore,
              orders := conn.committed.orders,
              credit_history := conn.committed.credit_history
                ++ [⟨uid, u.credit_score, reqScore, reqScore - u.credit_score,
                     reason, "admin", none⟩] }) := by
  have hu2 : findUser conn.committed.users uid = some u := hclean ▸ hu
  refine ⟨?_, ?_, ?_⟩
  · simp [submit_customer_feedback, update_user_credit_score, Conn.commit,
      Conn.rollback, hclean]
  · rcases uFail with _ | _ <;> rcases lFail with _ | _ <;>
      simp [admin_update_credit_score, hu2, Conn.commit, Conn.rollback,
        appendHistory, hclean]
  · rcases uFail with _ | _ <;> rcases lFail with _ | _ <;>
      simp [admin_update_credit_score, hu2, Conn.commit, Conn.rollback,
        appendHistory, hclean]

/-- C4 witness: the atomicity comparison evaluated on the concrete fixture
(user stored at 50, stats of a user with no orders, no injected failures on
the override side). -/
theorem c4_update_ledger_atomicity_witness :
    ((submit_customer_feedback conn50 70 1 9 (some stats0) false true).1.committed.users
        = updateUserRow creditStatusCase conn50.committed.users 1
            (calculate_credit_score (some stats0))
      ∧ (submit_customer_feedback conn50 70 1 9 (some stats0) false true).1.committed.credit_history
        = conn50.committed.credit_history)
    ∧ ((false = true ∨ false = true) →
        (admin_update_credit_score conn50 1 80 "audit" false false).1.committed
          = conn50.committed)
    ∧ (false = false → false = false →
        (admin_update_credit_score conn50 1 80 "audit" false false).1.committed
          = { users := updateUserRow adminCreditStatusCase conn50.committed.users 1 80,
              orders := conn50.committed.orders,
              credit_history := conn50.committed.credit_history
                ++ [⟨1, user50.credit_score, 80, 80 - user50.credit_score,
                     "audit", "admin", none⟩] }) :=
  c4_update_ledger_atomicity conn50 user50 70 1 9 (some stats0) 80 "audit"
    false false rfl (by decide)

/-- C5 counterexample: after a successful feedback-triggered recompute for a
user whose stored score was 50, the most recent ledger entry's `old_score`
is 70 — the restaurant session's cached `credit_score` default — not the
user's stored score 50 from immediately before the operation. -/
theorem c5_counterexample :
    ((submit_customer_feedback conn50 70 1 9 (some stats0) false false).1.committed.credit_history.getLast?).map
        CreditHistoryEntry.old_score = some 70
    ∧ userScore conn50.committed 1 = some 50
    ∧ ¬ ((submit_customer_feedback conn50 70 1 9 (some stats0) false false).1.committed.credit_history.getLast?).map
        CreditHistoryEntry.old_score = some 50 := by
  decide

/-- C5 amended: after a successful recompute the most recent ledger entry's
`new_score` does equal the user's stored CreditScore, and `change_amount`
equals `new_score` minus the entry's own `old_score`; but that `old_score`
is not the stored score from immediately before the operation — on the
feedback path it is the logged-in (restaurant) session's cached credit
score, and on the cancellation path it is the order's
`customer_credit_score` snapshot taken at order creation. -/
theorem c5_ledger_old_score_stale (conn : Conn) (u : User) (ord : OrderRow)
    (sess : Int) (uid oid : Nat) (st : Option OrderBehaviorStats)
    (reason : String)
    (hu : findUser conn.pending.users uid = some u)
    (ho : findOrder conn.pending.orders oid = some ord)
    (huid : ord.user_id = uid) :
    ((submit_customer_feedback conn sess uid oid st false false).2 = true
      ∧ (submit_customer_feedback conn sess uid oid st false false).1.committed.credit_history.getLast?
        = some ⟨uid, sess, calculate_credit_score st,
            calculate_credit_score st - sess, "Restaurant feedback",
            "restaurant", some oid⟩
      ∧ ((submit_customer_feedback conn sess uid oid st false false).1.committed.credit_history.getLast?).map
          CreditHistoryEntry.new_score
        = userScore (submit_customer_feedback conn sess uid oid st false false).1.committed uid)
    ∧ ((cancel_order conn oid reason st false false).2 = true
      ∧ (cancel_order conn oid reason st false false).1.committed.credit_history.getLast?
        = some ⟨uid, ord.customer_credit_score, calculate_credit_score st,
            calculate_credit_score st - ord.customer_credit_score,
            "Order cancellation: " ++ reason, "system", some oid⟩
      ∧ ((cancel_order conn oid reason st false false).1.committed.credit_history.getLast?).map
          CreditHistoryEntry.new_score
        = userScore (cancel_order conn oid reason st false false).1.committed uid) := by
  constructor
  · simp [submit_customer_feedback, update_user_credit_score, Conn.commit,
      appendHistory, getLast_append_one, userScore, findUser_updateUserRow, hu]
  · simp [cancel_order, ho, huid, submit_customer_feedback,
      update_user_credit_score, Conn.commit, appendHistory,
      getLast_append_one, userScore, findUser_updateUserRow, hu]

/-- C5 witness: the ledger relations evaluated on the concrete fixture — a
user stored at 50, a pending order with credit snapshot 50, and a session
cache of 70. -/
theorem c5_ledger_old_score_stale_witness :
    ((submit_customer_feedback connOrd 70 1 5 (some stats0) false false).2 = true
      ∧ (submit_customer_feedback connOrd 70 1 5 (some stats0) false false).1.committed.credit_history.getLast?
        = some ⟨1, 70, calculate_credit_score (some stats0),
            calculate_credit_score (some stats0) - 70, "Restaurant feedback",
            "restaurant", some 5⟩
      ∧ ((submit_customer_feedback connOrd 70 1 5 (some stats0) false false).1.committed.credit_history.getLast?).map
          CreditHistoryEntry.new_score
        = userScore (submit_customer_feedback connOrd 70 1 5 (some stats0) false false).1.committed 1)
    ∧ ((cancel_order connOrd 5 "late" (some stats0) false false).2 = true
      ∧ (cancel_order connOrd 5 "late" (some stats0) false false).1.committed.credit_history.getLast?
        = some ⟨1, order5.customer_credit_score, calculate_credit_score (some stats0),
            calculate_credit_score (some stats0) - order5.customer_credit_score,
            "Order cancellation: " ++ "late", "system", some 5⟩
      ∧ ((cancel_order connOrd 5 "late" (some stats0) false false).1.committed.credit_history.getLast?).map
          CreditHistoryEntry.new_score
        = userScore (cancel_order connOrd 5 "late" (some stats0) false false).1.committed 1) :=
  c5_ledger_old_score_stale connOrd user50 order5 70 1 5 (some stats0) "late"
    (by decide) (by decide) rfl

/-- C6 counterexample: when the stats aggregation cannot be retrieved,
recompute for a user stored at 50 does not leave the score unchanged — it
overwrites it with the default 70, because `calculate_credit_score` falls
back to `Config.DEFAULT_CREDIT_SCORE`, not to the user's current score. -/
theorem c6_counterexample :
    (update_user_credit_score conn50 1 none false).2 = some 70
    ∧ userScore conn50.committed 1 = some 50
    ∧ userScore (update_user_credit_score conn50 1 none false).1.committed 1
      = some 70
    ∧ ¬ userScore (update_user_credit_score conn50 1 none false).1.committed 1
      = some 50 := by
  decide

/-- C6 amended: if the behavior-stat aggregation cannot be retrieved,
recompute never raises (the triggering feedback flow still completes), but
instead of leaving the user's score unchanged it persists the default score
70 — a no-op only when the previous stored score was already 70. -/
theorem c6_stats_failure_writes_default (conn : Conn) (u : User)
    (uid oid : Nat) (sess : Int)
    (hu : findUser conn.pending.users uid = some u) :
    (update_user_credit_score conn uid none false).2 = some DEFAULT_CREDIT_SCORE
    ∧ userScore (update_user_credit_score conn uid none false).1.committed uid
      = some DEFAULT_CREDIT_SCORE
    ∧ (submit_customer_feedback conn sess uid oid none false false).2 = true := by
  refine ⟨rfl, ?_, rfl⟩
  simp [update_user_credit_score, Conn.commit, userScore,
    findUser_updateUserRow, hu, calculate_credit_score]

/-- C6 witness: the fallback behaviour evaluated on the concrete fixture —
the user stored at 50 ends up stored at the default 70. -/
theorem c6_stats_failure_writes_default_witness :
    (update_user_credit_score conn50 1 none false).2 = some DEFAULT_CREDIT_SCORE
    ∧ userScore (update_user_credit_score conn50 1 none false).1.committed 1
      = some DEFAULT_CREDIT_SCORE
    ∧ (submit_customer_feedback conn50 70 1 9 none false false).2 = true :=
  c6_stats_failure_writes_default conn50 user50 1 9 70 (by decide)

/-- C8 counterexample: recompute for a user id that does not exist does not
fail with a NotFound condition — `update_user_credit_score` performs no
existence check, runs the UPDATE (matching no rows), commits, and returns
the computed score 70 as a success. -/
theorem c8_counterexample :
    (update_user_credit_score connEmpty 42 (some stats0) false).2 = some 70
    ∧ (update_user_credit_score connEmpty 42 (some stats0) false).2 ≠ none := by
  decide

/-- C8 amended: for a user id that does not exist, the override operation
does fail (error response, no state mutated), but the recompute operation
does not: it returns the computed score as a success while mutating no user
row and writing no ledger entry of its own. -/
theorem c8_missing_user (conn : Conn) (uid : Nat) (reqScore : Int)
    (reason : String) (st : Option OrderBehaviorStats) (uFail lFail : Bool)
    (hu : findUser conn.pending.users uid = none) :
    ((admin_update_credit_score conn uid reqScore reason uFail lFail).2 = false
      ∧ (admin_update_credit_score conn uid reqScore reason uFail lFail).1 = conn)
    ∧ ((update_user_credit_score conn uid st false).2
        = some (calculate_credit_score st)
      ∧ (update_user_credit_score conn uid st false).1.committed.users
        = conn.pending.users
      ∧ (update_user_credit_score conn uid st false).1.committed.credit_history
        = conn.pending.credit_history) := by
  refine ⟨⟨?_, ?_⟩, rfl, ?_, rfl⟩
  · simp [admin_update_credit_score, hu]
  · simp [admin_update_credit_score, hu]
  · simp [update_user_credit_score, Conn.commit, updateUserRow_not_found, hu]

/-- C8 witness: the missing-user behaviour evaluated on the empty database
for user id 42. -/
theorem c8_missing_user_witness :
    ((admin_update_credit_score connEmpty 42 80 "test2" false false).2 = false
      ∧ (admin_update_credit_score connEmpty 42 80 "test2" false false).1 = connEmpty)
    ∧ ((update_user_credit_score connEmpty 42 (some stats0) false).2
        = some (calculate_credit_score (some stats0))
      ∧ (update_user_credit_score connEmpty 42 (some stats0) false).1.committed.users
        = connEmpty.pending.users
      ∧ (update_user_credit_score connEmpty 42 (some stats0) false).1.committed.credit_history
        = connEmpty.pending.credit_history) :=
  c8_missing_user connEmpty 42 80 "test2" (some stats0) false false rfl

/-- C9 counterexample: two immediately successive feedback-triggered
recomputes for a user stored at 70 with a session cache of 60 append two
ledger entries, each with change_amount 10 — not 0 as the claim states —
because each entry's change is measured against the cached old value. -/
theorem c9_counterexample :
    ((submit_customer_feedback
          (submit_customer_feedback connIdem 60 1 8 (some stats0) false false).1
          60 1 9 (some stats0) false false).1.committed.credit_history).map
        CreditHistoryEntry.change_amount = [10, 10]
    ∧ (10 : Int) ≠ 0 := by
  decide

/-- C9 amended: calling recompute twice in immediate succession with the
same stats returns the same score from both calls and appends two ledger
entries; both entries carry the same change_amount, equal to the recomputed
score minus the session-cached old value — which is 0 only when those two
coincide, not in general. -/
theorem c9_recompute_twice (conn : Conn) (sess : Int) (uid oid1 oid2 : Nat)
    (st : Option OrderBehaviorStats)
    (hclean : conn.pending = conn.committed) :
    (update_user_credit_score conn uid st false).2
      = (update_user_credit_score
          (submit_customer_feedback conn sess uid oid1 st false false).1
          uid st false).2
    ∧ (submit_customer_feedback conn sess uid oid1 st false false).2 = true
    ∧ (submit_customer_feedback
        (submit_customer_feedback conn sess uid oid1 st false false).1
        sess uid oid2 st false false).2 = true
    ∧ (submit_customer_feedback
        (submit_customer_feedback conn sess uid oid1 st false false).1
        sess uid oid2 st false false).1.committed.credit_history
      = conn.committed.credit_history
        ++ [⟨uid, sess, calculate_credit_score st,
             calculate_credit_score st - sess, "Restaurant feedback",
             "restaurant", some oid1⟩,
            ⟨uid, sess, calculate_credit_score st,
             calculate_credit_score st - sess, "Restaurant feedback",
             "restaurant", some oid2⟩] := by
  refine ⟨rfl, rfl, rfl, ?_⟩
  simp [submit_customer_feedback, update_user_credit_score, Conn.commit,
    appendHistory, hclean]

/-- C9 witness: the double-recompute behaviour evaluated on the concrete
fixture — user stored at 70, session cache 60, no-order stats. -/
theorem c9_recompute_twice_witness :
    (update_user_credit_score connIdem 1 (some stats0) false).2
      = (update_user_credit_score
          (submit_customer_feedback connIdem 60 1 8 (some stats0) false false).1
          1 (some stats0) false).2
    ∧ (submit_customer_feedback connIdem 60 1 8 (some stats0) false false).2 = true
    ∧ (submit_customer_feedback
        (submit_customer_feedback connIdem 60 1 8 (some stats0) false false).1
        60 1 9 (some stats0) false false).2 = true
    ∧ (submit_customer_feedback
        (submit_customer_feedback connIdem 60 1 8 (some stats0) false false).1
        60 1 9 (some stats0) false false).1.committed.credit_history
      = connIdem.committed.credit_history
        ++ [⟨1, 60, calculate_credit_score (some stats0),
             calculate_credit_score (some stats0) - 60, "Restaurant feedback",
             "restaurant", some 8⟩,
            ⟨1, 60, calculate_credit_score (some stats0),
             calculate_credit_score (some stats0) - 60, "Restaurant feedback",
             "restaurant", some 9⟩] :=
  c9_recompute_twice connIdem 60 1 8 9 (some stats0) rfl
